import Mathlib

/-
Verification of the travel-tracker data pipeline (app.py, import_data.py).

The embedding translates the data normalization and persistence logic of the
two source files into executable Lean definitions:

* machine floats holding coordinates are modelled as rationals (the reference
  table holds exact decimal literals);
* the external geodesic computation of geopy (a floating-point library call)
  is an abstract parameter gm of type (lat, lon) pairs to integer miles,
  mirroring int(geodesic(start, end).miles);
* pd.to_datetime on a string is an abstract fallible parser parseDay from
  strings to day numbers, where failure models the ValueError raise;
  pd.to_datetime(None) returns NaT, modelled as Option.none flowing through
  the timedelta subtraction to a NaN night count;
* strftime is an abstract formatter fmtDay from day numbers to strings;
* pandas CSV serialization is out of scope per the specification (file-format
  plumbing is an external collaborator), so a file is modelled as the stored
  table itself: an optional header-plus-rows value, absent when the file does
  not exist.
-/

namespace TravelTracker

/-- Airport reference table shared by app.py and import_data.py:
IATA code mapped to (latitude, longitude). -/
def AIRPORT_DB : List (String × (Rat × Rat)) := [
  ("DFW", (32.8998, -97.0403)), ("LGA", (40.7769, -73.8740)), ("JFK", (40.6413, -73.7781)),
  ("LHR", (51.4700, -0.4543)), ("ORD", (41.9742, -87.9073)), ("LAX", (33.9416, -118.4085)),
  ("MIA", (25.7959, -80.2870)), ("DCA", (38.8512, -77.0377)), ("SFO", (37.6213, -122.3790)),
  ("ATL", (33.6407, -84.4277)), ("DEN", (39.8561, -104.6737)), ("SEA", (47.4502, -122.3088)),
  ("DAL", (32.8471, -96.8517)), ("STL", (38.7487, -90.3700)), ("CLT", (35.2140, -80.9431)),
  ("PHX", (33.4343, -112.0116)), ("HEL", (60.3172, 24.9633)), ("AMS", (52.3081, 4.7661)),
  ("EWR", (40.6895, -74.1745))]

/-- Membership lookup in the airport table: code in AIRPORT_DB together with
AIRPORT_DB[code]. -/
def lookupAirport (code : String) : Option (Rat × Rat) :=
  (AIRPORT_DB.find? (fun p => p.fst == code)).map (fun p => p.snd)

/-- app.py calculate_distance: returns int(geodesic(start, end).miles) when both
codes resolve, 0 otherwise. The geodesic library call is the abstract
parameter gm. -/
def calculate_distance (gm : Rat × Rat → Rat × Rat → Int)
    (origin_code dest_code : String) : Int :=
  match lookupAirport origin_code, lookupAirport dest_code with
  | some s, some e => gm s e
  | _, _ => 0

/-- A row of the flights table, one per flight record. -/
structure FlightRow where
  Date : String
  Airline : String
  Origin : String
  Destination : String
  Miles : Int
  Origin_Lat : Rat
  Origin_Lon : Rat
  Dest_Lat : Rat
  Dest_Lon : Rat
deriving DecidableEq

/-- A pandas DataFrame at the abstraction level of the specification: a header
(list of column names) and a list of rows. -/
structure Table (α : Type) where
  cols : List String
  rows : List α
deriving DecidableEq

/-- The nine columns of the flights table. -/
def flightCols : List String :=
  ["Date", "Airline", "Origin", "Destination", "Miles",
   "Origin_Lat", "Origin_Lon", "Dest_Lat", "Dest_Lon"]

/-- app.py load_data: read the backing file; on FileNotFoundError return an
empty DataFrame with the expected columns. Serialization is out of scope, so
the file content is the table itself and an absent file is none. -/
def load_data {α : Type} (file : Option (Table α)) (columns : List String) : Table α :=
  match file with
  | some df => df
  | none => { cols := columns, rows := [] }

/-- app.py save_data: overwrite the backing file with the full table. -/
def save_data {α : Type} (df : Table α) : Option (Table α) :=
  some df

/-- The load-concat-save sequence used by both manual logging handlers:
load the current table, append the new row at the end, save. -/
def append_record {α : Type} (file : Option (Table α)) (cols : List String) (r : α) :
    Option (Table α) :=
  let curr := load_data file cols
  save_data { cols := curr.cols, rows := curr.rows ++ [r] }

/-- app.py Save Flight handler (lines 186 to 202): validate both codes against
AIRPORT_DB; on failure leave the file untouched and show the error message; on
success auto-fill Miles when the entered value is 0, copy the coordinates from
the table, and append the row. Returns the resulting file state and the error
message, if any. -/
def save_flight (gm : Rat × Rat → Rat × Rat → Int)
    (f_date f_air f_org f_dst : String) (f_miles : Int)
    (file : Option (Table FlightRow)) : Option (Table FlightRow) × Option String :=
  match lookupAirport f_org, lookupAirport f_dst with
  | some oc, some dc =>
    let miles := if f_miles = 0 then calculate_distance gm f_org f_dst else f_miles
    let row : FlightRow :=
      { Date := f_date, Airline := f_air, Origin := f_org, Destination := f_dst,
        Miles := miles, Origin_Lat := oc.fst, Origin_Lon := oc.snd,
        Dest_Lat := dc.fst, Dest_Lon := dc.snd }
    (append_record file flightCols row, none)
  | _, _ => (file, some "Unknown Airport Code.")

/-- Python str.upper, character by character (the inputs here are ASCII codes
and descriptions, where Char.toUpper agrees with Python). -/
def upperStr (s : String) : String :=
  String.mk (s.data.map Char.toUpper)

/-- Whether the character list starting here begins with the needle. -/
def startsWithSeq : List Char → List Char → Bool
  | [], _ => true
  | _ :: _, [] => false
  | c :: cs, h :: hs => c == h && startsWithSeq cs hs

/-- Whether the needle occurs as a contiguous run inside the haystack. -/
def containsSeq (needle : List Char) : List Char → Bool
  | [] => needle.isEmpty
  | h :: t => startsWithSeq needle (h :: t) || containsSeq needle t

/-- Python substring membership: needle in hay. -/
def strContains (hay needle : String) : Bool :=
  containsSeq needle.toList hay.toList

/-- Python a or b on optional strings: the first operand when it is truthy
(present and nonempty), otherwise the second operand as-is. -/
def pyOr (a b : Option String) : Option String :=
  match a with
  | some s => if s = "" then b else some s
  | none => b

/-- Python truthiness of an optional string. -/
def truthyO : Option String → Bool
  | none => false
  | some s => s != ""

/-- The summary object of an activity card; a missing summary is the value
with every field none, matching card.get with an empty-dict default. -/
structure CardSummary where
  activityType : Option String
  transactionDescription : Option String
  activityDate : Option String
  origin : Option String
  destination : Option String
deriving DecidableEq

/-- The details.flightInfo object of an activity card; missing parts default
to the all-none value, matching nested get calls with empty-dict defaults. -/
structure CardFlightInfo where
  travelDate : Option String
  origin : Option String
  destination : Option String
deriving DecidableEq

/-- One entry of the activityCards array of the flight activity export. -/
structure ActivityCard where
  summary : CardSummary
  flightInfo : CardFlightInfo
deriving DecidableEq

/-- import_data.py line 45, first conjunct: activity_type in the accepted
list. -/
def typeOK (card : ActivityCard) : Bool :=
  card.summary.activityType == some "Airline" ||
    card.summary.activityType == some "Award Issuance"

/-- import_data.py line 45, second conjunct: REFUND not in the uppercased
transaction description. -/
def refundFree (card : ActivityCard) : Bool :=
  !(strContains (upperStr (card.summary.transactionDescription.getD "")) "REFUND")

/-- import_data.py line 46: details travelDate, falling back to the summary
activityDate via Python or. -/
def cardDateStr (card : ActivityCard) : Option String :=
  pyOr card.flightInfo.travelDate card.summary.activityDate

/-- import_data.py line 47: details origin or summary origin or the empty
string, uppercased. -/
def cardOrigin (card : ActivityCard) : String :=
  upperStr ((pyOr (pyOr card.flightInfo.origin card.summary.origin) (some "")).getD "")

/-- import_data.py line 48: details destination or summary destination or the
empty string, uppercased. -/
def cardDest (card : ActivityCard) : String :=
  upperStr ((pyOr (pyOr card.flightInfo.destination card.summary.destination) (some "")).getD "")

/-- import_data.py line 50: the inner guard date_str and origin and dest and
origin != dest. -/
def innerOK (card : ActivityCard) : Bool :=
  truthyO (cardDateStr card) && cardOrigin card != "" &&
    cardDest card != "" && cardOrigin card != cardDest card

/-- The full acceptance filter of process_flights: the outer guard of line 45
conjoined with the inner guard of line 50. -/
def cardAccepted (card : ActivityCard) : Bool :=
  (typeOK card && refundFree card) && innerOK card

/-- import_data.py lines 52 to 70: the record built for an accepted card whose
date parsed to day number d. Miles and the four coordinates are zero-filled
unless both codes resolve in AIRPORT_DB. -/
def mkCardRow (gm : Rat × Rat → Rat × Rat → Int) (fmtDay : Int → String)
    (card : ActivityCard) (d : Int) : FlightRow :=
  match lookupAirport (cardOrigin card), lookupAirport (cardDest card) with
  | some o, some e =>
    { Date := fmtDay d, Airline := "American Airlines",
      Origin := cardOrigin card, Destination := cardDest card,
      Miles := gm o e, Origin_Lat := o.fst, Origin_Lon := o.snd,
      Dest_Lat := e.fst, Dest_Lon := e.snd }
  | _, _ =>
    { Date := fmtDay d, Airline := "American Airlines",
      Origin := cardOrigin card, Destination := cardDest card,
      Miles := 0, Origin_Lat := 0, Origin_Lon := 0,
      Dest_Lat := 0, Dest_Lon := 0 }

/-- Processing of a single activity card by process_flights. ok none means the
card is silently skipped; ok (some r) appends the record r; error models the
uncaught ValueError raised by pd.to_datetime on an unparsable date string
(parseDay returning none), which aborts the whole batch. -/
def flightOfCard (gm : Rat × Rat → Rat × Rat → Int)
    (parseDay : String → Option Int) (fmtDay : Int → String)
    (card : ActivityCard) : Except Unit (Option FlightRow) :=
  if typeOK card && refundFree card then
    if innerOK card then
      match cardDateStr card with
      | some s =>
        match parseDay s with
        | none => Except.error ()
        | some d => Except.ok (some (mkCardRow gm fmtDay card d))
      | none => Except.ok none
    else Except.ok none
  else Except.ok none

/-- The loop over activityCards in process_flights: accumulate accepted
records in order; a raise from any card aborts the whole batch. -/
def collectFlights (gm : Rat × Rat → Rat × Rat → Int)
    (parseDay : String → Option Int) (fmtDay : Int → String) :
    List ActivityCard → Except Unit (List FlightRow)
  | [] => Except.ok []
  | c :: cs =>
    match flightOfCard gm parseDay fmtDay c with
    | Except.error e => Except.error e
    | Except.ok none => collectFlights gm parseDay fmtDay cs
    | Except.ok (some r) =>
      match collectFlights gm parseDay fmtDay cs with
      | Except.error e => Except.error e
      | Except.ok rest => Except.ok (r :: rest)

/-- Worker of dedupFirst, carrying the set of already-seen rows. -/
def dedupGo {α : Type} [DecidableEq α] (seen : List α) : List α → List α
  | [] => []
  | x :: xs => if x ∈ seen then dedupGo seen xs else x :: dedupGo (x :: seen) xs

/-- pandas drop_duplicates with default keep=first: remove every row equal to
an earlier row, preserving the order of first occurrences. -/
def dedupFirst {α : Type} [DecidableEq α] (l : List α) : List α :=
  dedupGo [] l

/-- import_data.py lines 72 to 73: pd.DataFrame(flights) followed by
drop_duplicates. An empty record list yields a frame with no columns. -/
def mkFlightDF (flights : List FlightRow) : Table FlightRow :=
  { cols := if flights.isEmpty then [] else flightCols,
    rows := dedupFirst flights }

/-- import_data.py process_flights as a whole stage. The input is none when
flightData.txt is missing (stage skipped, prior output kept, no count
reported); some none when the file parses but has no activityCards key;
some (some cards) otherwise. On completion the output file is overwritten
with the deduplicated frame and the written count is reported. -/
def process_flights_model (gm : Rat × Rat → Rat × Rat → Int)
    (parseDay : String → Option Int) (fmtDay : Int → String)
    (input : Option (Option (List ActivityCard)))
    (prior : Option (Table FlightRow)) :
    Except Unit (Option (Table FlightRow) × Option Nat) :=
  match input with
  | none => Except.ok (prior, none)
  | some json =>
    match collectFlights gm parseDay fmtDay (json.getD []) with
    | Except.error e => Except.error e
    | Except.ok fs =>
      Except.ok (some (mkFlightDF fs), some (dedupFirst fs).length)

/-- pd.to_datetime as used on the hotel dates: the argument None gives NaT
(ok none); a string either parses to a day number (ok some) or raises
(error). -/
def to_datetime (parseDay : String → Option Int) :
    Option String → Except Unit (Option Int)
  | none => Except.ok none
  | some s =>
    match parseDay s with
    | some d => Except.ok (some d)
    | none => Except.error ()

/-- Timestamp subtraction followed by .days: NaT on either side propagates to
a NaN day count (none); otherwise the signed whole-day difference. -/
def subDays : Option Int → Option Int → Option Int
  | some s, some e => some (e - s)
  | _, _ => none

/-- import_data.py lines 102 to 108: the Nights computation of process_hotels.
The try block evaluates both to_datetime calls and the subtraction; only a
raise (unparsable string) reaches the except branch that sets nights to 1.
The result none models a NaN night count from a missing (NaT) date. -/
def computeNights (parseDay : String → Option Int)
    (startDate endDate : Option String) : Option Int :=
  match to_datetime parseDay startDate with
  | Except.error _ => some 1
  | Except.ok sv =>
    match to_datetime parseDay endDate with
    | Except.error _ => some 1
    | Except.ok ev => subDays sv ev

/-- The raw address-parts mapping returned by the geocoder. -/
def AddressParts : Type := List (String × String)

/-- Python dict.get with a default, on the raw address parts. -/
def rawGet (raw : AddressParts) (k : String) (dflt : String) : String :=
  match raw.find? (fun p => p.fst == k) with
  | some p => p.snd
  | none => dflt

/-- app.py line 245, manual hotel auto-populate: city, town, village, county,
then the empty string. -/
def manual_city (raw : AddressParts) : String :=
  rawGet raw "city" (rawGet raw "town" (rawGet raw "village" (rawGet raw "county" "")))

/-- import_data.py line 120, batch hotel import: city, town, village, then
Unknown. There is no county step on this path. -/
def batch_city (raw : AddressParts) : String :=
  rawGet raw "city" (rawGet raw "town" (rawGet raw "village" "Unknown"))

/-- Ordered fallback over a priority list of keys, as the specification words
the city chain: the value of the first key present, else the default. -/
def chainLookup (raw : AddressParts) : List String → String → String
  | [], dflt => dflt
  | k :: ks, dflt =>
    match raw.find? (fun p => p.fst == k) with
    | some p => p.snd
    | none => chainLookup raw ks dflt

/-- Lexicographic comparison of character lists by code point, the order
Python uses to sort strings. -/
def charListLt : List Char → List Char → Bool
  | _, [] => false
  | [], _ :: _ => true
  | a :: as, b :: bs =>
    decide (a.toNat < b.toNat) || (a == b && charListLt as bs)

/-- Python string comparison a lt b. -/
def strLt (a b : String) : Bool :=
  charListLt a.data b.data

/-- app.py lines 89 to 91: Route_ID is the hyphen-join of the sorted pair of
codes, so reversed routes share one identifier. -/
def routeID (o d : String) : String :=
  if strLt d o then d ++ "-" ++ o else o ++ "-" ++ d

/-- app.py lines 90 to 91: the frequency of the route of record r across the
filtered record set, via value_counts of Route_ID. -/
def routeFreq (fs : List FlightRow) (r : FlightRow) : Nat :=
  (fs.map (fun x => routeID x.Origin x.Destination)).count
    (routeID r.Origin r.Destination)

/-- app.py get_color (lines 93 to 96): red at frequency 5 and above, orange at
3 and 4, blue below. -/
def get_color (freq : Nat) : List Nat :=
  if freq ≥ 5 then [255, 0, 0, 200]
  else if freq ≥ 3 then [255, 165, 0, 200]
  else [0, 128, 255, 150]

/-- Concrete geodesic model returning 0 miles everywhere, for witnesses. -/
def gm0 : Rat × Rat → Rat × Rat → Int := fun _ _ => 0

/-- Concrete geodesic model returning 999 miles everywhere, for witnesses. -/
def gm9 : Rat × Rat → Rat × Rat → Int := fun _ _ => 999

/-- Concrete date parser on which every string raises, standing for inputs
such as the string NOT A DATE, on which pd.to_datetime raises ValueError. -/
def p0 : String → Option Int := fun _ => none

/-- Concrete date parser accepting exactly 2025-03-01. -/
def p1 : String → Option Int :=
  fun s => if s == "2025-03-01" then some 20148 else none

/-- Concrete date parser accepting 2025-03-01 as day 0 and 2025-03-04 as
day 3. -/
def p2 : String → Option Int :=
  fun s =>
    if s == "2025-03-01" then some 0
    else if s == "2025-03-04" then some 3
    else none

/-- Concrete strftime model, for witnesses. -/
def fd0 : Int → String := fun _ => "2025-03-01"

/-- An activity card passing the whole acceptance filter whose date string is
present but unparsable. -/
def c0 : ActivityCard :=
  { summary := { activityType := some "Airline",
                 transactionDescription := some "FLIGHT PURCHASE",
                 activityDate := some "NOT A DATE",
                 origin := some "JFK", destination := some "LAX" },
    flightInfo := { travelDate := none, origin := none, destination := none } }

/-- A well-formed accepted activity card from JFK to LAX. -/
def c1 : ActivityCard :=
  { summary := { activityType := some "Airline",
                 transactionDescription := some "FLIGHT PURCHASE",
                 activityDate := some "2025-03-01",
                 origin := some "jfk", destination := some "LAX" },
    flightInfo := { travelDate := none, origin := none, destination := none } }

/-- The flight record produced for c1. -/
def c1Row : FlightRow :=
  { Date := "2025-03-01", Airline := "American Airlines", Origin := "JFK",
    Destination := "LAX", Miles := 0, Origin_Lat := 40.6413,
    Origin_Lon := -73.7781, Dest_Lat := 33.9416, Dest_Lon := -118.4085 }

/-- An otherwise well-formed card whose description holds the REFUND token. -/
def cR : ActivityCard :=
  { summary := { activityType := some "Airline",
                 transactionDescription := some "Flight Credit REFUND",
                 activityDate := some "2025-03-01",
                 origin := some "JFK", destination := some "LAX" },
    flightInfo := { travelDate := none, origin := none, destination := none } }

/-- An accepted card whose codes are absent from the airport table. -/
def cZ : ActivityCard :=
  { summary := { activityType := some "Award Issuance",
                 transactionDescription := some "AWARD TRAVEL",
                 activityDate := some "2025-03-01",
                 origin := some "QQQ", destination := some "RRR" },
    flightInfo := { travelDate := none, origin := none, destination := none } }

/-- The zero-filled record produced for cZ. -/
def cZRow : FlightRow :=
  { Date := "2025-03-01", Airline := "American Airlines", Origin := "QQQ",
    Destination := "RRR", Miles := 0, Origin_Lat := 0, Origin_Lon := 0,
    Dest_Lat := 0, Dest_Lon := 0 }

/-- The row the manual handler writes for a JFK to JFK submission. -/
def jfkJfkRow : FlightRow :=
  { Date := "2025-03-01", Airline := "Delta", Origin := "JFK",
    Destination := "JFK", Miles := 0, Origin_Lat := 40.6413,
    Origin_Lon := -73.7781, Dest_Lat := 40.6413, Dest_Lon := -73.7781 }

/-- A JFK to LAX record, for the route-frequency witness. -/
def rowJL : FlightRow :=
  { Date := "2025-01-01", Airline := "Delta", Origin := "JFK",
    Destination := "LAX", Miles := 2475, Origin_Lat := 0, Origin_Lon := 0,
    Dest_Lat := 0, Dest_Lon := 0 }

/-- The reverse LAX to JFK record. -/
def rowLJ : FlightRow :=
  { Date := "2025-02-01", Airline := "Delta", Origin := "LAX",
    Destination := "JFK", Miles := 2475, Origin_Lat := 0, Origin_Lon := 0,
    Dest_Lat := 0, Dest_Lon := 0 }

/-- A filtered set in which the JFK and LAX pair occurs three times. -/
def fs3 : List FlightRow := [rowJL, rowLJ, rowJL]

/-- A nonempty prior output file, for the overwrite witness. -/
def priorT : Table FlightRow := { cols := flightCols, rows := [rowJL] }

theorem charToNat_inj {a b : Char} (h : a.toNat = b.toNat) : a = b := by
  rw [← Char.ofNat_toNat a, ← Char.ofNat_toNat b, h]

theorem charListLt_cons (a b : Char) (as bs : List Char) :
    charListLt (a :: as) (b :: bs) = true ↔
      (a.toNat < b.toNat ∨ (a = b ∧ charListLt as bs = true)) := by
  simp [charListLt]

theorem charListLt_asymm : ∀ {x y : List Char},
    charListLt x y = true → charListLt y x = false := by
  intro x
  induction x with
  | nil =>
    intro y h
    cases y with
    | nil => simp [charListLt] at h
    | cons b bs => rfl
  | cons a as ih =>
    intro y h
    cases y with
    | nil => simp [charListLt] at h
    | cons b bs =>
      rcases (charListLt_cons a b as bs).mp h with hlt | ⟨hab, ht⟩
      · have hd : decide (b.toNat < a.toNat) = false := decide_eq_false (by omega)
        have hne : (b == a) = false := by
          rw [Bool.eq_false_iff]
          intro hc
          rw [beq_iff_eq] at hc
          subst hc
          omega
        simp [charListLt, hd, hne]
      · subst hab
        have hd : decide (a.toNat < a.toNat) = false := decide_eq_false (by omega)
        simp [charListLt, hd, ih ht]

theorem charListLt_conn : ∀ {x y : List Char},
    charListLt x y = false → charListLt y x = false → x = y := by
  intro x
  induction x with
  | nil =>
    intro y h1 h2
    cases y with
    | nil => rfl
    | cons b bs => simp [charListLt] at h1
  | cons a as ih =>
    intro y h1 h2
    cases y with
    | nil => simp [charListLt] at h2
    | cons b bs =>
      have n1 : ¬ (a.toNat < b.toNat ∨ (a = b ∧ charListLt as bs = true)) := by
        intro hc
        have hT := (charListLt_cons a b as bs).mpr hc
        rw [h1] at hT
        exact Bool.noConfusion hT
      have n2 : ¬ (b.toNat < a.toNat ∨ (b = a ∧ charListLt bs as = true)) := by
        intro hc
        have hT := (charListLt_cons b a bs as).mpr hc
        rw [h2] at hT
        exact Bool.noConfusion hT
      push_neg at n1 n2
      obtain ⟨l1, i1⟩ := n1
      obtain ⟨l2, i2⟩ := n2
      have hab : a = b := charToNat_inj (by omega)
      subst hab
      have r1 : charListLt as bs = false := Bool.eq_false_iff.mpr (i1 rfl)
      have r2 : charListLt bs as = false := Bool.eq_false_iff.mpr (i2 rfl)
      rw [ih r1 r2]

theorem strLt_conn {a b : String} (h1 : strLt a b = false)
    (h2 : strLt b a = false) : a = b := by
  cases a with
  | mk da =>
    cases b with
    | mk db =>
      have : da = db := charListLt_conn h1 h2
      rw [this]

theorem routeID_symm (o d : String) : routeID o d = routeID d o := by
  unfold routeID
  cases h1 : strLt d o with
  | true =>
    have h2 : strLt o d = false := charListLt_asymm h1
    simp [h2]
  | false =>
    cases h2 : strLt o d with
    | true => simp
    | false =>
      have h3 : o = d := strLt_conn h2 h1
      subst h3
      simp

theorem truthyO_true {o : Option String} (h : truthyO o = true) :
    ∃ s, o = some s ∧ s ≠ "" := by
  cases o with
  | none => simp [truthyO] at h
  | some s => exact ⟨s, rfl, by simpa [truthyO] using h⟩

theorem mkCardRow_Origin (gm : Rat × Rat → Rat × Rat → Int) (fd : Int → String)
    (card : ActivityCard) (d : Int) :
    (mkCardRow gm fd card d).Origin = cardOrigin card := by
  unfold mkCardRow
  split <;> rfl

theorem mkCardRow_Destination (gm : Rat × Rat → Rat × Rat → Int) (fd : Int → String)
    (card : ActivityCard) (d : Int) :
    (mkCardRow gm fd card d).Destination = cardDest card := by
  unfold mkCardRow
  split <;> rfl

theorem flightOfCard_ok_some {gm : Rat × Rat → Rat × Rat → Int}
    {pd : String → Option Int} {fd : Int → String}
    {card : ActivityCard} {r : FlightRow}
    (h : flightOfCard gm pd fd card = Except.ok (some r)) :
    innerOK card = true ∧ ∃ d, r = mkCardRow gm fd card d := by
  unfold flightOfCard at h
  by_cases h1 : (typeOK card && refundFree card) = true
  · rw [if_pos h1] at h
    by_cases h2 : innerOK card = true
    · rw [if_pos h2] at h
      cases hd : cardDateStr card with
      | none => rw [hd] at h; simp at h
      | some s =>
        simp only [hd] at h
        cases hp : pd s with
        | none => simp only [hp] at h; simp at h
        | some d =>
          simp only [hp] at h
          refine ⟨h2, d, ?_⟩
          have h3 := Except.ok.inj h
          exact (Option.some.inj h3).symm
    · rw [if_neg h2] at h; simp at h
  · rw [if_neg h1] at h; simp at h

theorem mem_dedupGo {α : Type} [DecidableEq α] (l : List α) :
    ∀ (seen : List α) (a : α), a ∈ dedupGo seen l ↔ a ∈ l ∧ a ∉ seen := by
  induction l with
  | nil => intro seen a; simp [dedupGo]
  | cons x xs ih =>
    intro seen a
    unfold dedupGo
    by_cases hx : x ∈ seen
    · rw [if_pos hx, ih]
      constructor
      · rintro ⟨hl, hr⟩; exact ⟨List.mem_cons_of_mem _ hl, hr⟩
      · rintro ⟨hl, hr⟩
        rcases List.mem_cons.mp hl with rfl | hl
        · exact absurd hx hr
        · exact ⟨hl, hr⟩
    · rw [if_neg hx]
      by_cases hax : a = x
      · subst hax
        simp [List.mem_cons, hx]
      · simp only [List.mem_cons, ih, hax, false_or]

theorem nodup_dedupGo {α : Type} [DecidableEq α] (l : List α) :
    ∀ seen : List α, (dedupGo seen l).Nodup := by
  induction l with
  | nil => intro seen; simp [dedupGo]
  | cons x xs ih =>
    intro seen
    unfold dedupGo
    by_cases hx : x ∈ seen
    · rw [if_pos hx]; exact ih seen
    · rw [if_neg hx]
      rw [List.nodup_cons]
      refine ⟨?_, ih (x :: seen)⟩
      intro hmem
      exact ((mem_dedupGo xs (x :: seen) x).mp hmem).2 (List.mem_cons_self x seen)

theorem mem_dedupFirst {α : Type} [DecidableEq α] (l : List α) (a : α) :
    a ∈ dedupFirst l ↔ a ∈ l := by
  unfold dedupFirst
  rw [mem_dedupGo]
  simp

theorem nodup_dedupFirst {α : Type} [DecidableEq α] (l : List α) :
    (dedupFirst l).Nodup :=
  nodup_dedupGo l []

/-- C1: Manual flight submission. When Origin or Destination does not resolve
in the airport reference table, the handler rejects the submission with the
user-visible message and leaves the file untouched, so no record is written.
Otherwise the appended row copies the coordinates exactly from the reference
table, and an entered Miles of 0 is replaced by the computed great-circle
distance of those coordinates before persisting; in particular a JFK to LAX
submission with Miles 0 stores the distance computed from exactly
(40.6413, -73.7781) and (33.9416, -118.4085). -/
theorem manual_flight_submission (gm : Rat × Rat → Rat × Rat → Int)
    (f_date f_air f_org f_dst : String) (f_miles : Int)
    (file : Option (Table FlightRow)) :
    (lookupAirport f_org = none ∨ lookupAirport f_dst = none →
      save_flight gm f_date f_air f_org f_dst f_miles file
        = (file, some "Unknown Airport Code.")) ∧
    (∀ oc dc, lookupAirport f_org = some oc → lookupAirport f_dst = some dc →
      save_flight gm f_date f_air f_org f_dst f_miles file
        = (some { cols := (load_data file flightCols).cols,
                  rows := (load_data file flightCols).rows ++
                    [{ Date := f_date, Airline := f_air, Origin := f_org,
                       Destination := f_dst,
                       Miles := if f_miles = 0 then gm oc dc else f_miles,
                       Origin_Lat := oc.fst, Origin_Lon := oc.snd,
                       Dest_Lat := dc.fst, Dest_Lon := dc.snd }] }, none)) ∧
    (save_flight gm f_date f_air "JFK" "LAX" 0 file
      = (some { cols := (load_data file flightCols).cols,
                rows := (load_data file flightCols).rows ++
                  [{ Date := f_date, Airline := f_air, Origin := "JFK",
                     Destination := "LAX",
                     Miles := gm (40.6413, -73.7781) (33.9416, -118.4085),
                     Origin_Lat := 40.6413, Origin_Lon := -73.7781,
                     Dest_Lat := 33.9416, Dest_Lon := -118.4085 }] }, none)) := by
  refine ⟨?_, ?_, ?_⟩
  · intro h
    cases ho : lookupAirport f_org <;> cases hd : lookupAirport f_dst <;>
      simp_all [save_flight]
  · intro oc dc ho hd
    simp [save_flight, ho, hd, calculate_distance, append_record, load_data,
      save_data]
  · have ho : lookupAirport "JFK" = some (40.6413, -73.7781) := rfl
    have hd : lookupAirport "LAX" = some (33.9416, -118.4085) := rfl
    simp [save_flight, ho, hd, calculate_distance, append_record, load_data,
      save_data]

/-- Witness for C1: a submission with the unknown code ZZZ is rejected with
the message and no write, and a JFK to LAX submission with Miles 0 appends the
row with the table coordinates and the computed distance. -/
theorem manual_flight_submission_witness :
    save_flight gm0 "2025-03-01" "Delta" "ZZZ" "LAX" 0 none
      = (none, some "Unknown Airport Code.") ∧
    save_flight gm0 "2025-03-01" "Delta" "JFK" "LAX" 0 none
      = (some { cols := flightCols,
                rows := [{ Date := "2025-03-01", Airline := "Delta",
                           Origin := "JFK", Destination := "LAX", Miles := 0,
                           Origin_Lat := 40.6413, Origin_Lon := -73.7781,
                           Dest_Lat := 33.9416, Dest_Lon := -118.4085 }] },
         none) := by
  constructor
  · exact (manual_flight_submission gm0 "2025-03-01" "Delta" "ZZZ" "LAX" 0
      none).1 (Or.inl rfl)
  · have h := (manual_flight_submission gm0 "2025-03-01" "Delta" "JFK" "LAX" 0
      none).2.1 (40.6413, -73.7781) (33.9416, -118.4085) rfl rfl
    simpa [load_data, gm0] using h

/-- C2 counterexample: the card c0 passes the whole acceptance filter of
process_flights (activityType Airline, no REFUND token, date and codes
present, distinct codes), yet no record is produced and the batch aborts,
because its present date string does not parse: pd.to_datetime raises. The
parser p0 models pandas failing on the string NOT A DATE. -/
theorem batch_filter_counterexample :
    cardAccepted c0 = true ∧
    flightOfCard gm0 p0 fd0 c0 = Except.error () ∧
    collectFlights gm0 p0 fd0 [c0] = Except.error () :=
  ⟨rfl, rfl, rfl⟩

/-- C2 amended: a flight record is produced if and only if the entry passes
the acceptance filter (activityType in the accepted set, no case-insensitive
REFUND token, date and origin and destination present, origin distinct from
destination) AND its date string parses; an entry failing the filter is
silently excluded with no error, but an accepted entry whose present date
string does not parse raises and aborts the whole batch instead of being
excluded. -/
theorem batch_flight_acceptance (gm : Rat × Rat → Rat × Rat → Int)
    (pd : String → Option Int) (fd : Int → String) (card : ActivityCard) :
    (cardAccepted card = false → flightOfCard gm pd fd card = Except.ok none) ∧
    (cardAccepted card = true →
      ∃ s, cardDateStr card = some s ∧ s ≠ "" ∧
        (pd s = none → flightOfCard gm pd fd card = Except.error ()) ∧
        (∀ d, pd s = some d →
          flightOfCard gm pd fd card
            = Except.ok (some (mkCardRow gm fd card d)))) := by
  constructor
  · intro h
    by_cases h1 : (typeOK card && refundFree card) = true
    · have h2 : innerOK card = false := by
        unfold cardAccepted at h
        rw [h1] at h
        simpa using h
      simp [flightOfCard, h1, h2]
    · have h1f : (typeOK card && refundFree card) = false :=
        Bool.eq_false_iff.mpr h1
      simp [flightOfCard, h1f]
  · intro h
    unfold cardAccepted at h
    rw [Bool.and_eq_true] at h
    obtain ⟨h1, h2⟩ := h
    have ht : truthyO (cardDateStr card) = true := by
      unfold innerOK at h2
      rw [Bool.and_eq_true, Bool.and_eq_true, Bool.and_eq_true] at h2
      exact h2.1.1.1
    obtain ⟨s, hs, hne⟩ := truthyO_true ht
    refine ⟨s, hs, hne, ?_, ?_⟩
    · intro hp
      simp [flightOfCard, h1, h2, hs, hp]
    · intro d hp
      simp [flightOfCard, h1, h2, hs, hp]

/-- Witness for C2: the accepted card c1 with a parsing date yields exactly
its record, and the REFUND card cR is silently excluded. -/
theorem batch_flight_acceptance_witness :
    flightOfCard gm0 p1 fd0 c1 = Except.ok (some (mkCardRow gm0 fd0 c1 20148)) ∧
    flightOfCard gm0 p1 fd0 cR = Except.ok none := by
  constructor
  · obtain ⟨s, hs, hne, herr, hok⟩ :=
      (batch_flight_acceptance gm0 p1 fd0 c1).2 rfl
    have hsv : s = "2025-03-01" := by
      have h0 : (some "2025-03-01" : Option String) = some s := by
        rw [← hs]; rfl
      exact (Option.some.inj h0).symm
    subst hsv
    exact hok 20148 rfl
  · exact (batch_flight_acceptance gm0 p1 fd0 cR).1 rfl

/-- C5 counterexample: the manual handler accepts a submission whose Origin
and Destination are both JFK (both resolve in the table) and writes a record
with Origin equal to Destination; the manual path never compares the two
codes. -/
theorem manual_same_code_counterexample :
    save_flight gm0 "2025-03-01" "Delta" "JFK" "JFK" 0 none
      = (some { cols := flightCols, rows := [jfkJfkRow] }, none) ∧
    jfkJfkRow.Origin = jfkJfkRow.Destination :=
  ⟨rfl, rfl⟩

/-- C5 amended: every flight record produced by the batch import path
satisfies Origin distinct from Destination (the batch filter enforces it),
but the manual form handler checks only that both codes resolve, so the
invariant does not hold for the manual creation path. -/
theorem batch_import_origin_ne_destination (gm : Rat × Rat → Rat × Rat → Int)
    (pd : String → Option Int) (fd : Int → String) (card : ActivityCard)
    (r : FlightRow) (h : flightOfCard gm pd fd card = Except.ok (some r)) :
    r.Origin ≠ r.Destination := by
  obtain ⟨hin, d, hr⟩ := flightOfCard_ok_some h
  unfold innerOK at hin
  rw [Bool.and_eq_true, Bool.and_eq_true, Bool.and_eq_true] at hin
  have hne : cardOrigin card ≠ cardDest card := by
    have := hin.2
    exact bne_iff_ne.mp this
  rw [hr, mkCardRow_Origin, mkCardRow_Destination]
  exact hne

/-- Witness for C5: the record produced for the accepted card c1 has distinct
Origin and Destination. -/
theorem batch_import_origin_ne_destination_witness :
    c1Row.Origin ≠ c1Row.Destination :=
  batch_import_origin_ne_destination gm0 p1 fd0 c1 c1Row rfl

/-- C3 counterexample: a STAY whose start and end dates are the same
parseable day yields Nights 0, not the claimed default of 1 — the try block
computes (end - start).days with no comparison against 1, so Nights can be
zero. -/
theorem nights_equal_dates_counterexample :
    computeNights p1 (some "2025-03-01") (some "2025-03-01") = some 0 ∧
    (some (0 : Int) : Option Int) ≠ some 1 :=
  ⟨rfl, by decide⟩

/-- C3 amended: Nights is the signed whole-day difference end minus start
whenever both dates are present and parse, so it is 0 when the dates are
equal and negative when the end precedes the start; Nights defaults to 1
exactly when a present date string fails to parse (the raise reaching the
except branch); a missing date becomes NaT and propagates to a NaN night
count (modelled none), not 1. -/
theorem nights_computation (pd : String → Option Int) (s e : Option String) :
    (∀ a b, to_datetime pd s = Except.ok (some a) →
      to_datetime pd e = Except.ok (some b) →
      computeNights pd s e = some (b - a)) ∧
    (to_datetime pd s = Except.error () ∨ to_datetime pd e = Except.error () →
      computeNights pd s e = some 1) ∧
    ((to_datetime pd s = Except.ok none ∧ to_datetime pd e ≠ Except.error ()) ∨
     (to_datetime pd s ≠ Except.error () ∧ to_datetime pd e = Except.ok none) →
      computeNights pd s e = none) := by
  refine ⟨?_, ?_, ?_⟩
  · intro a b ha hb
    unfold computeNights
    rw [ha, hb]
    rfl
  · intro h
    unfold computeNights
    rcases h with h | h
    · rw [h]
    · rw [h]
      cases hs : to_datetime pd s with
      | error u => rfl
      | ok sv => rfl
  · intro h
    unfold computeNights
    rcases h with ⟨h1, h2⟩ | ⟨h1, h2⟩
    · rw [h1]
      cases he : to_datetime pd e with
      | error u => cases u; exact absurd he h2
      | ok ev => cases ev <;> rfl
    · rw [h2]
      cases hs : to_datetime pd s with
      | error u => cases u; exact absurd hs h1
      | ok sv => cases sv <;> rfl

/-- Witness for C3 amended: a three-day stay gives Nights 3, an unparsable
start string gives the default 1, and a missing start date gives NaN. -/
theorem nights_computation_witness :
    computeNights p2 (some "2025-03-01") (some "2025-03-04") = some 3 ∧
    computeNights p2 (some "garbage") (some "2025-03-04") = some 1 ∧
    computeNights p2 none (some "2025-03-04") = none := by
  refine ⟨?_, ?_, ?_⟩
  · have h := (nights_computation p2 (some "2025-03-01")
      (some "2025-03-04")).1 0 3 rfl rfl
    simpa using h
  · exact (nights_computation p2 (some "garbage") (some "2025-03-04")).2.1
      (Or.inl rfl)
  · refine (nights_computation p2 none (some "2025-03-04")).2.2 (Or.inl ⟨rfl, ?_⟩)
    intro h
    rw [show to_datetime p2 (some "2025-03-04") = Except.ok (some 3) from rfl] at h
    exact Except.noConfusion h

/-- C4 counterexample: raw address parts holding only a county resolve to the
county value under the chain the claim states for the batch path, but the
batch code (import_data.py line 120) has no county step and yields Unknown. -/
theorem batch_city_county_counterexample :
    chainLookup [("county", "Clayton")] ["city", "town", "village", "county"]
      "Unknown" = "Clayton" ∧
    batch_city [("county", "Clayton")] = "Unknown" ∧
    ("Clayton" : String) ≠ "Unknown" :=
  ⟨rfl, rfl, by decide⟩

/-- C4 amended: the manual path resolves City through the ordered chain city,
town, village, county with default empty string; the batch path resolves City
through the shorter chain city, town, village with default Unknown and no
county step; raw parts holding only a town resolve to the town value on both
paths. -/
theorem city_fallback_chains (raw : AddressParts) (v : String) :
    manual_city raw = chainLookup raw ["city", "town", "village", "county"] "" ∧
    batch_city raw = chainLookup raw ["city", "town", "village"] "Unknown" ∧
    manual_city [("town", v)] = v ∧
    batch_city [("town", v)] = v := by
  refine ⟨?_, ?_, rfl, rfl⟩
  · cases h1 : raw.find? (fun p => p.fst == "city") <;>
      cases h2 : raw.find? (fun p => p.fst == "town") <;>
        cases h3 : raw.find? (fun p => p.fst == "village") <;>
          cases h4 : raw.find? (fun p => p.fst == "county") <;>
            simp [manual_city, chainLookup, rawGet, h1, h2, h3, h4]
  · cases h1 : raw.find? (fun p => p.fst == "city") <;>
      cases h2 : raw.find? (fun p => p.fst == "town") <;>
        cases h3 : raw.find? (fun p => p.fst == "village") <;>
          simp [batch_city, chainLookup, rawGet, h1, h2, h3]

/-- C6: Store round trip. Loading from an absent file returns an empty table
with exactly the expected columns; appending one record to that empty table,
saving and reloading yields exactly that one record; appending to a non-empty
table preserves the existing row order followed by the new row. Pandas CSV
serialization is out of scope per the specification, so save and load act on
the stored table value itself. -/
theorem store_round_trip (α : Type) (cols : List String) (r : α) (t : Table α) :
    load_data (none : Option (Table α)) cols = { cols := cols, rows := [] } ∧
    load_data (append_record none cols r) cols = { cols := cols, rows := [r] } ∧
    load_data (append_record (some t) cols r) cols
      = { cols := t.cols, rows := t.rows ++ [r] } :=
  ⟨rfl, rfl, rfl⟩

/-- C7: Distance degradation. calculate_distance returns 0 whenever either
code is absent from the reference table, for any geodesic model and any input
codes; on the batch path a produced record whose origin or destination code
is absent from the table has Miles 0 and all four coordinate fields 0. -/
theorem distance_zero_degradation (gm : Rat × Rat → Rat × Rat → Int)
    (a b : String) (pd : String → Option Int) (fd : Int → String)
    (card : ActivityCard) (r : FlightRow) :
    (lookupAirport a = none ∨ lookupAirport b = none →
      calculate_distance gm a b = 0) ∧
    (flightOfCard gm pd fd card = Except.ok (some r) →
      lookupAirport r.Origin = none ∨ lookupAirport r.Destination = none →
      r.Miles = 0 ∧ r.Origin_Lat = 0 ∧ r.Origin_Lon = 0 ∧
        r.Dest_Lat = 0 ∧ r.Dest_Lon = 0) := by
  constructor
  · intro h
    cases ho : lookupAirport a <;> cases hb : lookupAirport b <;>
      simp_all [calculate_distance]
  · intro hok habs
    obtain ⟨hin, d, hr⟩ := flightOfCard_ok_some hok
    subst hr
    rw [mkCardRow_Origin, mkCardRow_Destination] at habs
    unfold mkCardRow
    cases ho : lookupAirport (cardOrigin card) <;>
      cases hd : lookupAirport (cardDest card) <;> simp_all

/-- Witness for C7: an unknown code ZZZ gives distance 0 under a geodesic
model that never returns 0 on its own, and the batch record for the card cZ
with codes QQQ and RRR is fully zero-filled. -/
theorem distance_zero_degradation_witness :
    calculate_distance gm9 "ZZZ" "JFK" = 0 ∧
    (cZRow.Miles = 0 ∧ cZRow.Origin_Lat = 0 ∧ cZRow.Origin_Lon = 0 ∧
      cZRow.Dest_Lat = 0 ∧ cZRow.Dest_Lon = 0) := by
  constructor
  · exact (distance_zero_degradation gm9 "ZZZ" "JFK" p1 fd0 cZ cZRow).1
      (Or.inl rfl)
  · exact (distance_zero_degradation gm9 "ZZZ" "JFK" p1 fd0 cZ cZRow).2
      rfl (Or.inl rfl)

/-- C8: Batch flight deduplication. The frame written by process_flights is
the accepted record list deduplicated by exact full-row equality keeping
first occurrences: the written rows carry no two identical rows, a row
appears in the output exactly when it appears among the accepted records, and
any row occurring among the accepted records, however many times, occurs
exactly once in the output. -/
theorem batch_dedup_full_row (fs : List FlightRow) (r : FlightRow) :
    (mkFlightDF fs).rows = dedupFirst fs ∧
    (mkFlightDF fs).rows.Nodup ∧
    (r ∈ (mkFlightDF fs).rows ↔ r ∈ fs) ∧
    (mkFlightDF fs).rows.count r = (if r ∈ fs then 1 else 0) := by
  refine ⟨rfl, nodup_dedupFirst fs, mem_dedupFirst fs r, ?_⟩
  by_cases h : r ∈ fs
  · rw [if_pos h]
    exact List.count_eq_one_of_mem (nodup_dedupFirst fs)
      ((mem_dedupFirst fs r).mpr h)
  · rw [if_neg h]
    exact List.count_eq_zero_of_not_mem
      (fun hc => h ((mem_dedupFirst fs r).mp hc))

/-- C9: Route-frequency classification. Records are grouped by the unordered
pair of Origin and Destination: the route identifier is symmetric and a
record with the two codes swapped has the same frequency; the color tiers
follow the occurrence count over the filtered set: at least 5 is red (high),
3 or 4 is orange (medium), 1 or 2 is blue (low). The classification is a pure
function of the current record list, recomputed on each evaluation. -/
theorem route_frequency_classification (fs : List FlightRow) (r : FlightRow) :
    (5 ≤ routeFreq fs r → get_color (routeFreq fs r) = [255, 0, 0, 200]) ∧
    (routeFreq fs r = 3 ∨ routeFreq fs r = 4 →
      get_color (routeFreq fs r) = [255, 165, 0, 200]) ∧
    (routeFreq fs r = 1 ∨ routeFreq fs r = 2 →
      get_color (routeFreq fs r) = [0, 128, 255, 150]) ∧
    routeID r.Origin r.Destination = routeID r.Destination r.Origin ∧
    routeFreq fs { r with Origin := r.Destination, Destination := r.Origin }
      = routeFreq fs r := by
  refine ⟨?_, ?_, ?_, routeID_symm r.Origin r.Destination, ?_⟩
  · intro h
    unfold get_color
    rw [if_pos h]
  · intro h
    unfold get_color
    rcases h with h | h <;> rw [h] <;> norm_num
  · intro h
    unfold get_color
    rcases h with h | h <;> rw [h] <;> norm_num
  · unfold routeFreq
    rw [show ({ r with Origin := r.Destination, Destination := r.Origin }
        : FlightRow).Origin = r.Destination from rfl]
    rw [show ({ r with Origin := r.Destination, Destination := r.Origin }
        : FlightRow).Destination = r.Origin from rfl]
    rw [routeID_symm r.Destination r.Origin]

/-- Witness for C9: in a set where the JFK and LAX pair occurs three times
(twice one way, once reversed), the record classifies orange (medium). -/
theorem route_frequency_classification_witness :
    get_color (routeFreq fs3 rowJL) = [255, 165, 0, 200] :=
  (route_frequency_classification fs3 rowJL).2.1 (Or.inl rfl)

/-- C10: When the batch flight input file exists and parses but no entry
passes the acceptance filter — in particular when the activityCards key is
absent — the stage still overwrites the output file with an empty frame with
no rows and no columns (hence no header), reports a written count of 0, and
the prior output content is lost whatever it was. -/
theorem empty_batch_overwrites_output (gm : Rat × Rat → Rat × Rat → Int)
    (pd : String → Option Int) (fd : Int → String) (cards : List ActivityCard)
    (prior : Option (Table FlightRow)) :
    (process_flights_model gm pd fd (some none) prior
      = Except.ok (some { cols := [], rows := [] }, some 0)) ∧
    (collectFlights gm pd fd cards = Except.ok [] →
      process_flights_model gm pd fd (some (some cards)) prior
        = Except.ok (some { cols := [], rows := [] }, some 0)) := by
  constructor
  · rfl
  · intro h
    unfold process_flights_model
    simp only [Option.getD_some, h]
    rfl

/-- Witness for C10: processing a file whose only card is the REFUND card cR
over a nonempty prior output yields the empty no-column frame and count 0,
and so does a file without the activityCards key. -/
theorem empty_batch_overwrites_output_witness :
    process_flights_model gm0 p1 fd0 (some (some [cR])) (some priorT)
      = Except.ok (some { cols := [], rows := [] }, some 0) ∧
    process_flights_model gm0 p1 fd0 (some none) (some priorT)
      = Except.ok (some { cols := [], rows := [] }, some 0) :=
  ⟨(empty_batch_overwrites_output gm0 p1 fd0 [cR] (some priorT)).2 rfl,
   (empty_batch_overwrites_output gm0 p1 fd0 [cR] (some priorT)).1⟩

end TravelTracker
